import Mathlib

/-!
Verification of the conversational booking engine of the
restaurant-voice-ai-booking repository.

The development shallowly embeds the JavaScript source:

* `backend/services/geminiService.js` (the variant actually loaded by
  `backend/websocket.js`, i.e. the one providing `initConversation`,
  `isBookingComplete`, and the two-argument `extractBookingInfo`):
  slot state, the extraction filter, `determineNextStep`,
  `isBookingComplete`.
* `backend/websocket.js`: the `user_message` merge
  (`{...conversationState, ...extractedInfo}`) and
  `handleFinalizeBooking`.
* `backend/utils/dateParser.js`: `parseNaturalDate`.
* `backend/services/weatherService.js`: `getWeatherForDate` and
  `generateRecommendation`.
* `backend/models/Booking.js`: the mongoose schema validation run by
  `booking.save()`.

JavaScript objects holding slot values are modelled as total maps from a
slot name to a JS value (`JSVal`), with JS truthiness made explicit.
Dates are modelled at day granularity (`CalDate`), which is faithful
because every date the parser returns is normalized to midnight.
-/

/-- A JavaScript value as it can appear in a slot of the conversation
state or of an extraction result: `undefined`, `null`, a string, a
number, or a boolean.  (Objects never appear in the seven extraction
slots.) -/
inductive JSVal where
  | vundef
  | vnull
  | vstr (s : String)
  | vnum (n : Int)
  | vbool (b : Bool)
deriving DecidableEq, Repr

/-- JavaScript truthiness of a `JSVal`: `undefined`, `null`, `""`, `0`
and `false` are falsy, everything else is truthy. -/
def truthy : JSVal → Bool
  | .vundef => false
  | .vnull => false
  | .vstr s => !(s == "")
  | .vnum n => !(n == 0)
  | .vbool b => b

/-- The seven slot keys produced by the extraction prompt of
`geminiService.extractBookingInfo` and merged into the conversation
state. -/
inductive Slot where
  | customerName
  | numberOfGuests
  | bookingDate
  | bookingTime
  | cuisinePreference
  | specialRequests
  | seatingPreference
deriving DecidableEq, Repr

/-- The conversation state (`client.conversationState` /
`conversationState` in the inbound message), restricted to the seven
extraction slots: a total map from slot key to JS value, an absent key
being `undefined`. -/
def StateMap : Type := Slot → JSVal

/-- The empty conversation state `{}`. -/
def emptyState : StateMap := fun _ => JSVal.vundef

/-- The filter at the end of `geminiService.extractBookingInfo`
(part_005 lines 231-241): from the JSON object the model returned, keep
a key only if its value is neither `null` nor `undefined` and the key is
not already truthy in `existingState`
(`if (value !== null && value !== undefined && !existingState[key])`).
`some v` means the key is present in the returned `newInfo` object with
value `v`; `none` means the key is absent. -/
def filterNewInfo (raw : StateMap) (existingState : StateMap) : Slot → Option JSVal :=
  fun k =>
    if raw k ≠ JSVal.vnull ∧ raw k ≠ JSVal.vundef ∧ truthy (existingState k) = false then
      some (raw k)
    else
      none

/-- Outcome of the language-model extraction call inside
`extractBookingInfo`: either the response text contained a JSON object
(`parsed raw`), or no JSON was found / the call threw, in which case the
function returns `{}`. -/
inductive ExtractOutcome where
  | parsed (raw : StateMap)
  | empty

/-- `geminiService.extractBookingInfo userMessage existingState`, as a
function of the extraction outcome: the filtered `newInfo` object on a
parsed JSON response, the empty object otherwise. -/
def extractBookingInfo (outcome : ExtractOutcome) (existingState : StateMap) :
    Slot → Option JSVal :=
  match outcome with
  | .parsed raw => filterNewInfo raw existingState
  | .empty => fun _ => none

/-- The object-spread merge of `websocket.js` `handleUserMessage`
(lines 152-155): `{...conversationState, ...extractedInfo}` — a key
present in `extractedInfo` overrides the base state, any other key keeps
its base value. -/
def spreadMerge (conversationState : StateMap) (extractedInfo : Slot → Option JSVal) :
    StateMap :=
  fun k => (extractedInfo k).getD (conversationState k)

/-- One `user_message` turn's state update: extract against the current
state, then spread-merge the result over it. -/
def mergeTurn (conversationState : StateMap) (outcome : ExtractOutcome) : StateMap :=
  spreadMerge conversationState (extractBookingInfo outcome conversationState)

/-- `geminiService.determineNextStep` (part_005 lines 255-275): return
the ask-value of the first falsy slot in the fixed order, else
`"confirm"`. -/
def determineNextStep (state : StateMap) : String :=
  if !truthy (state Slot.customerName) then "ask_name"
  else if !truthy (state Slot.numberOfGuests) then "ask_guests"
  else if !truthy (state Slot.bookingDate) then "ask_date"
  else if !truthy (state Slot.bookingTime) then "ask_time"
  else if !truthy (state Slot.cuisinePreference) then "ask_cuisine"
  else if !truthy (state Slot.seatingPreference) then "ask_seating"
  else "confirm"

/-- `geminiService.isBookingComplete` (part_005 lines 280-288): the five
required slots (`cuisinePreference` and `specialRequests` excluded) are
all truthy. -/
def isBookingComplete (state : StateMap) : Bool :=
  truthy (state Slot.customerName) &&
  truthy (state Slot.numberOfGuests) &&
  truthy (state Slot.bookingDate) &&
  truthy (state Slot.bookingTime) &&
  truthy (state Slot.seatingPreference)

/-- The six slots `determineNextStep` inspects, in their fixed order,
paired with their ask-values.  Used by the reference definition
`specNextStep`, written from the (amended) specification's words. -/
def slotOrder : List (Slot × String) :=
  [(Slot.customerName, "ask_name"),
   (Slot.numberOfGuests, "ask_guests"),
   (Slot.bookingDate, "ask_date"),
   (Slot.bookingTime, "ask_time"),
   (Slot.cuisinePreference, "ask_cuisine"),
   (Slot.seatingPreference, "ask_seating")]

/-- Reference next-step function following the specification's words:
return the ask-value of the earliest-ordered empty (falsy) slot, and
`"confirm"` when no slot of the order is empty. -/
def specNextStep (state : StateMap) : String :=
  match slotOrder.find? (fun p => !truthy (state p.1)) with
  | some p => p.2
  | none => "confirm"

/-- A concrete state with the five required slots filled and
`cuisinePreference` empty: the completion predicate holds but
`determineNextStep` still asks for cuisine. -/
def stateNoCuisine : StateMap := fun k =>
  match k with
  | Slot.customerName => JSVal.vstr "John"
  | Slot.numberOfGuests => JSVal.vnum 4
  | Slot.bookingDate => JSVal.vstr "tomorrow"
  | Slot.bookingTime => JSVal.vstr "19:00"
  | Slot.cuisinePreference => JSVal.vundef
  | Slot.specialRequests => JSVal.vundef
  | Slot.seatingPreference => JSVal.vstr "indoor"

/-- C1: merging an extraction result into a conversation state, as done
in the `user_message` turn, never changes a slot that is already
non-empty (truthy): first-write-wins holds for every slot, because
`extractBookingInfo` drops every key that is already truthy in the
existing state before the spread merge runs. -/
theorem C1_first_write_wins (s : StateMap) (outcome : ExtractOutcome) (k : Slot)
    (h : truthy (s k) = true) : mergeTurn s outcome k = s k := by
  cases outcome with
  | parsed raw =>
      simp only [mergeTurn, spreadMerge, extractBookingInfo, filterNewInfo]
      rw [if_neg]
      · rfl
      · intro hc
        rw [h] at hc
        exact absurd hc.2.2 (by simp)
  | empty =>
      rfl

/-- Witness for C1 at a concrete state and extraction result: the
already-set `customerName` survives a turn whose raw extraction tries to
overwrite it. -/
theorem C1_first_write_wins_witness :
    truthy (stateNoCuisine Slot.customerName) = true ∧
    mergeTurn stateNoCuisine
      (ExtractOutcome.parsed (fun _ => JSVal.vstr "Sarah")) Slot.customerName =
      stateNoCuisine Slot.customerName := by
  refine ⟨by decide, ?_⟩
  exact C1_first_write_wins stateNoCuisine
    (ExtractOutcome.parsed (fun _ => JSVal.vstr "Sarah")) Slot.customerName (by decide)

/-- C2 counterexample: with the five required slots filled and cuisine
empty, the completion predicate holds but `determineNextStep` returns
`"ask_cuisine"`, not `"confirm"` — refuting the claim that it returns
`"confirm"` if and only if none of the five required slots are empty. -/
theorem C2_counterexample :
    isBookingComplete stateNoCuisine = true ∧
    determineNextStep stateNoCuisine = "ask_cuisine" ∧
    determineNextStep stateNoCuisine ≠ "confirm" := by
  refine ⟨by decide, by decide, by decide⟩

/-- C2 (amended): `determineNextStep` is a pure function of which of the
six ordered slots are empty — it equals the reference function returning
the earliest-ordered empty slot's ask-value — and it returns `"confirm"`
if and only if all six slots (including `cuisinePreference`) are
non-empty, not just the five required ones. -/
theorem C2_next_step_amended (s : StateMap) :
    determineNextStep s = specNextStep s ∧
    (determineNextStep s = "confirm" ↔
      (truthy (s Slot.customerName) && truthy (s Slot.numberOfGuests) &&
       truthy (s Slot.bookingDate) && truthy (s Slot.bookingTime) &&
       truthy (s Slot.cuisinePreference) && truthy (s Slot.seatingPreference)) = true) := by
  cases h1 : truthy (s Slot.customerName) <;>
  cases h2 : truthy (s Slot.numberOfGuests) <;>
  cases h3 : truthy (s Slot.bookingDate) <;>
  cases h4 : truthy (s Slot.bookingTime) <;>
  cases h5 : truthy (s Slot.cuisinePreference) <;>
  cases h6 : truthy (s Slot.seatingPreference) <;>
  simp [determineNextStep, specNextStep, slotOrder, h1, h2, h3, h4, h5, h6]

/-!
## Dates — `backend/utils/dateParser.js`

`parseNaturalDate` only ever returns midnight-normalized dates, so a
date is modelled as a calendar day `⟨year, month, day⟩`.  JS `Date`
comparison of midnight dates coincides with lexicographic comparison of
the triples.  The generic `new Date(string)` parsing that the source
applies to its cleaned input is modelled over an abstract expression
grammar: the literals `today` / `tomorrow`, a month/day expression
(ordinal suffix already stripped, as the source strips it before
parsing), and an expression no JS parse accepts.  A month/day string
with an appended year parses to that calendar day when it is a real day
of that year (V8 rejects out-of-range days of a named month), and to
`Invalid Date` (`none`) otherwise.
-/

/-- A calendar date at day granularity (midnight-normalized). -/
structure CalDate where
  y : Nat
  m : Nat
  d : Nat
deriving DecidableEq, Repr

/-- JS leap-year rule, as `new Date` applies it:
`(y % 4 === 0 && y % 100 !== 0) || y % 400 === 0`. -/
def isLeap (y : Nat) : Bool :=
  decide ((y % 4 = 0 ∧ ¬ y % 100 = 0) ∨ y % 400 = 0)

/-- Number of days of month `m` (1-12) in a year of the given
leap-ness. -/
def monthLength (leap : Bool) (m : Nat) : Nat :=
  match m with
  | 1 => 31
  | 2 => if leap then 29 else 28
  | 3 => 31
  | 4 => 30
  | 5 => 31
  | 6 => 30
  | 7 => 31
  | 8 => 31
  | 9 => 30
  | 10 => 31
  | 11 => 30
  | 12 => 31
  | _ => 0

/-- A triple denotes a real calendar day: positive year, month 1-12,
day within the month. -/
def validDate : CalDate → Bool
  | ⟨y, m, d⟩ =>
    decide (1 ≤ y) && decide (1 ≤ m) && decide (m ≤ 12) &&
    decide (1 ≤ d) && decide (d ≤ monthLength (isLeap y) m)

/-- Strict order on calendar dates (lexicographic on year, month, day);
agrees with JS `Date` comparison for midnight dates. -/
def dateLt : CalDate → CalDate → Prop
  | ⟨y1, m1, d1⟩, ⟨y2, m2, d2⟩ =>
    y1 < y2 ∨ (y1 = y2 ∧ (m1 < m2 ∨ (m1 = m2 ∧ d1 < d2)))

instance : (a b : CalDate) → Decidable (dateLt a b)
  | ⟨y1, m1, d1⟩, ⟨y2, m2, d2⟩ =>
    inferInstanceAs (Decidable (y1 < y2 ∨ (y1 = y2 ∧ (m1 < m2 ∨ (m1 = m2 ∧ d1 < d2)))))

/-- The calendar day after `x` (what `t.setDate(t.getDate() + 1)`
computes on a midnight date). -/
def nextDay : CalDate → CalDate
  | ⟨y, m, d⟩ =>
    if d < monthLength (isLeap y) m then ⟨y, m, d + 1⟩
    else if m < 12 then ⟨y, m + 1, 1⟩
    else ⟨y + 1, 1, 1⟩

/-- Leap days in years `1, …, y-1`. -/
def leapsBefore (y : Nat) : Nat :=
  (y - 1) / 4 + (y - 1) / 400 - (y - 1) / 100

/-- Days in years `1, …, y-1`. -/
def daysBeforeYear (y : Nat) : Nat :=
  365 * (y - 1) + leapsBefore y

/-- Days in the months of the year strictly before month `m`. -/
def daysBeforeMonth (leap : Bool) (m : Nat) : Nat :=
  match m with
  | 1 => 0
  | 2 => 31
  | 3 => 59 + (if leap then 1 else 0)
  | 4 => 90 + (if leap then 1 else 0)
  | 5 => 120 + (if leap then 1 else 0)
  | 6 => 151 + (if leap then 1 else 0)
  | 7 => 181 + (if leap then 1 else 0)
  | 8 => 212 + (if leap then 1 else 0)
  | 9 => 243 + (if leap then 1 else 0)
  | 10 => 273 + (if leap then 1 else 0)
  | 11 => 304 + (if leap then 1 else 0)
  | 12 => 334 + (if leap then 1 else 0)
  | _ => 0

/-- Linear day number of a calendar date (days since the proleptic
civil epoch), so that "plus one day" is expressible as `+ 1`. -/
def toDays : CalDate → Nat
  | ⟨y, m, d⟩ => daysBeforeYear y + daysBeforeMonth (isLeap y) m + (d - 1)

theorem daysBeforeMonth_succ (leap : Bool) (m : Nat) (h1 : 1 ≤ m) (h2 : m ≤ 11) :
    daysBeforeMonth leap (m + 1) = daysBeforeMonth leap m + monthLength leap m := by
  interval_cases m <;> cases leap <;> rfl

theorem leapsBefore_succ (y : Nat) (h : 1 ≤ y) :
    leapsBefore (y + 1) = leapsBefore y + (if isLeap y then 1 else 0) := by
  unfold leapsBefore isLeap
  by_cases h4 : y % 4 = 0 <;> by_cases h100 : y % 100 = 0 <;> by_cases h400 : y % 400 = 0 <;>
    simp [h4, h100, h400] <;> omega

/-- Every real month has at least one day. -/
theorem monthLength_pos (leap : Bool) (m : Nat) (h1 : 1 ≤ m) (h2 : m ≤ 12) :
    1 ≤ monthLength leap m := by
  interval_cases m <;> cases leap <;> simp [monthLength]

/-- Stepping to the next calendar day increments the day number by
exactly one. -/
theorem toDays_nextDay (x : CalDate) (h : validDate x = true) :
    toDays (nextDay x) = toDays x + 1 := by
  obtain ⟨y, m, d⟩ := x
  simp only [validDate, Bool.and_eq_true, decide_eq_true_eq] at h
  obtain ⟨⟨⟨⟨hy, hm1⟩, hm2⟩, hd1⟩, hd2⟩ := h
  simp only [nextDay]
  split
  · simp only [toDays]
    omega
  · rename_i hlt
    have hdm : d = monthLength (isLeap y) m := by omega
    split
    · rename_i hm12
      simp only [toDays]
      rw [daysBeforeMonth_succ (isLeap y) m hm1 (by omega)]
      have hmono := monthLength_pos (isLeap y) m hm1 hm2
      omega
    · rename_i hm12
      have hm : m = 12 := by omega
      subst hm
      simp only [monthLength] at hdm
      subst hdm
      simp only [toDays, daysBeforeYear, daysBeforeMonth, monthLength]
      rw [leapsBefore_succ y hy]
      cases hc : isLeap y <;> simp <;> omega

/-- The next calendar day is strictly later in the date order. -/
theorem dateLt_nextDay (x : CalDate) : dateLt x (nextDay x) := by
  obtain ⟨y, m, d⟩ := x
  simp only [nextDay]
  split
  · show y < y ∨ (y = y ∧ (m < m ∨ (m = m ∧ d < d + 1)))
    omega
  · split
    · show y < y ∨ (y = y ∧ (m < m + 1 ∨ (m = m + 1 ∧ d < 1)))
      omega
    · show y < y + 1 ∨ (y = y + 1 ∧ (m < 1 ∨ (m = 1 ∧ d < 1)))
      omega

/-- The next calendar day of a valid date is valid. -/
theorem validDate_nextDay (x : CalDate) (h : validDate x = true) :
    validDate (nextDay x) = true := by
  obtain ⟨y, m, d⟩ := x
  simp only [validDate, Bool.and_eq_true, decide_eq_true_eq] at h
  obtain ⟨⟨⟨⟨hy, hm1⟩, hm2⟩, hd1⟩, hd2⟩ := h
  simp only [nextDay]
  split
  · simp only [validDate, Bool.and_eq_true, decide_eq_true_eq]
    exact ⟨⟨⟨⟨hy, hm1⟩, hm2⟩, by omega⟩, by omega⟩
  · split
    · simp only [validDate, Bool.and_eq_true, decide_eq_true_eq]
      refine ⟨⟨⟨⟨hy, by omega⟩, by omega⟩, by omega⟩, ?_⟩
      exact monthLength_pos (isLeap y) (m + 1) (by omega) (by omega)
    · simp only [validDate, Bool.and_eq_true, decide_eq_true_eq]
      refine ⟨⟨⟨⟨by omega, by omega⟩, by omega⟩, by omega⟩, ?_⟩
      simp [monthLength]

/-- A natural-language date expression, after the source has lowercased
it for the literal checks and stripped ordinal suffixes
(`1st → 1`, …): the literals, a month/day expression, or a string no
JS date parse accepts (with or without an appended year). -/
inductive DateExpr where
  | today
  | tomorrow
  | monthDay (m : Nat) (d : Nat)
  | unparsable
deriving DecidableEq, Repr

/-- `new Date("<month> <day> <year>")`: the calendar day when it is a
real day of that year, `Invalid Date` (`none`) otherwise. -/
def jsParseWithYear (y m d : Nat) : Option CalDate :=
  if validDate ⟨y, m, d⟩ then some ⟨y, m, d⟩ else none

/-- JS `date < today` on a possibly-invalid date: comparisons against
`Invalid Date` (`NaN`) are false. -/
def jsDateLt (o : Option CalDate) (ref : CalDate) : Bool :=
  match o with
  | none => false
  | some x => decide (dateLt x ref)

/-- `parseNaturalDate` of `backend/utils/dateParser.js`, against a
reference date `ref` (the source's `today`, i.e. `new Date()` normalized
to midnight): `"today"` and `"tomorrow"` literals; otherwise parse the
cleaned string with the current year appended, retry with the next year
if the result is strictly before `ref`, fall back to the comma-qualified
next-year format if the result is invalid or still before `ref`, and
fail (`null`) if the result is still invalid. -/
def parseNaturalDate (e : DateExpr) (ref : CalDate) : Option CalDate :=
  match e with
  | .today => some ref
  | .tomorrow => some (nextDay ref)
  | .monthDay m d =>
      let date1 := jsParseWithYear ref.y m d
      let date2 := if jsDateLt date1 ref then jsParseWithYear (ref.y + 1) m d else date1
      let date3 := if date2.isNone || jsDateLt date2 ref then jsParseWithYear (ref.y + 1) m d
                   else date2
      date3
  | .unparsable => none

theorem dateLt_irrefl (x : CalDate) : ¬ dateLt x x := by
  obtain ⟨y, m, d⟩ := x
  show ¬(y < y ∨ (y = y ∧ (m < m ∨ (m = m ∧ d < d))))
  omega

theorem not_dateLt_nextDay (x : CalDate) : ¬ dateLt (nextDay x) x := by
  obtain ⟨y, m, d⟩ := x
  simp only [nextDay]
  split
  · show ¬(y < y ∨ (y = y ∧ (m < m ∨ (m = m ∧ d + 1 < d))))
    omega
  · split
    · show ¬(y < y ∨ (y = y ∧ (m + 1 < m ∨ (m + 1 = m ∧ 1 < d))))
      omega
    · show ¬(y + 1 < y ∨ (y + 1 = y ∧ (1 < m ∨ (1 = m ∧ 1 < d))))
      omega

theorem jsParseWithYear_some (y m d : Nat) (dt : CalDate)
    (h : jsParseWithYear y m d = some dt) : dt = ⟨y, m, d⟩ := by
  unfold jsParseWithYear at h
  split at h
  · exact (Option.some_inj.mp h).symm
  · cases h

/-- A date whose year field is strictly above the reference year is
never before the reference date. -/
theorem not_dateLt_nextYear (ref : CalDate) (m d : Nat) :
    ¬ dateLt ⟨ref.y + 1, m, d⟩ ref := by
  obtain ⟨ry, rm, rd⟩ := ref
  show ¬(ry + 1 < ry ∨ (ry + 1 = ry ∧ (m < rm ∨ (m = rm ∧ d < rd))))
  omega

/-- C3: whenever `parseNaturalDate` succeeds, the returned date is never
strictly before the reference date: a month/day expression resolving
before today is re-resolved against the next year, so the result is
always the nearest same-day or future date. -/
theorem C3_never_past (e : DateExpr) (ref dt : CalDate)
    (h : parseNaturalDate e ref = some dt) :
    ¬ dateLt dt ref := by
  cases e with
  | today =>
      simp only [parseNaturalDate, Option.some.injEq] at h
      subst h
      exact dateLt_irrefl ref
  | tomorrow =>
      simp only [parseNaturalDate, Option.some.injEq] at h
      subst h
      exact not_dateLt_nextDay ref
  | unparsable =>
      simp [parseNaturalDate] at h
  | monthDay m d =>
      simp only [parseNaturalDate] at h
      split at h
      · split at h
        · have hdt := jsParseWithYear_some _ _ _ _ h
          subst hdt
          exact not_dateLt_nextYear ref m d
        · have hdt := jsParseWithYear_some _ _ _ _ h
          subst hdt
          exact not_dateLt_nextYear ref m d
      · split at h
        · have hdt := jsParseWithYear_some _ _ _ _ h
          subst hdt
          exact not_dateLt_nextYear ref m d
        · rename_i hcond3
          rw [h] at hcond3
          simp only [Option.isNone_some, Bool.false_or, jsDateLt] at hcond3
          intro habs
          exact hcond3 (decide_eq_true habs)

/-- Witness for C3 at the specification's own example: with reference
date 2025-12-10, `"December 5th"` (month 12, day 5) resolves to
2026-12-05 — the year rolled forward — which is not before the
reference. -/
theorem C3_never_past_witness :
    parseNaturalDate (DateExpr.monthDay 12 5) ⟨2025, 12, 10⟩ = some ⟨2026, 12, 5⟩ ∧
    ¬ dateLt ⟨2026, 12, 5⟩ ⟨2025, 12, 10⟩ := by
  refine ⟨by decide, ?_⟩
  exact C3_never_past (DateExpr.monthDay 12 5) ⟨2025, 12, 10⟩ ⟨2026, 12, 5⟩
    (by decide)

/-- C9: for every (valid) reference date, `"today"` resolves to the
reference date itself (midnight-normalized, as dates are modelled at day
granularity) and `"tomorrow"` resolves to the reference date plus one
day: the returned calendar day is valid and its linear day number is the
reference's plus one. -/
theorem C9_today_tomorrow (ref : CalDate) (h : validDate ref = true) :
    parseNaturalDate DateExpr.today ref = some ref ∧
    parseNaturalDate DateExpr.tomorrow ref = some (nextDay ref) ∧
    toDays (nextDay ref) = toDays ref + 1 ∧
    validDate (nextDay ref) = true :=
  ⟨rfl, rfl, toDays_nextDay ref h, validDate_nextDay ref h⟩

/-- Witness for C9 at the concrete reference date 2025-12-10. -/
theorem C9_today_tomorrow_witness :
    parseNaturalDate DateExpr.today ⟨2025, 12, 10⟩ = some ⟨2025, 12, 10⟩ ∧
    parseNaturalDate DateExpr.tomorrow ⟨2025, 12, 10⟩ = some (nextDay ⟨2025, 12, 10⟩) ∧
    toDays (nextDay ⟨2025, 12, 10⟩) = toDays ⟨2025, 12, 10⟩ + 1 ∧
    validDate (nextDay ⟨2025, 12, 10⟩) = true :=
  C9_today_tomorrow ⟨2025, 12, 10⟩ (by decide)

/-!
## Weather — `backend/services/weatherService.js`

Kernel-executable models of the JS string primitives the service uses
(`String.prototype.includes`, `toLowerCase` on ASCII), then
`generateRecommendation` and `getWeatherForDate`.  Temperatures are
modelled as integers (the service rounds with `Math.round` before use).
-/

/-- `listPrefix pat l`: `pat` is a prefix of `l`. -/
def listPrefix : List Char → List Char → Bool
  | [], _ => true
  | _ :: _, [] => false
  | a :: as, b :: bs => (a == b) && listPrefix as bs

/-- `listInfix pat l`: `pat` occurs contiguously inside `l`. -/
def listInfix (pat : List Char) (l : List Char) : Bool :=
  match l with
  | [] => listPrefix pat []
  | _ :: rest => listPrefix pat l || listInfix pat rest

/-- JS `s.includes(pat)`. -/
def jsIncludes (s pat : String) : Bool := listInfix pat.data s.data

/-- ASCII lowercase of one character (all condition strings the service
handles are ASCII). -/
def charLower (c : Char) : Char :=
  if 'A' ≤ c ∧ c ≤ 'Z' then Char.ofNat (c.toNat + 32) else c

/-- JS `s.toLowerCase()` on ASCII strings. -/
def jsToLower (s : String) : String := ⟨s.data.map charLower⟩

/-- The weather fields `generateRecommendation` destructures from its
argument (`const { condition, temperature, description } = weatherData`)
are passed as separate parameters. -/
structure Recommendation where
  seating : String
  message : String
deriving DecidableEq, Repr

/-- `weatherService.generateRecommendation` (part_005 lines 429-496):
condition checks in source order — rain/drizzle, thunder/storm,
clear/sun (banded on temperature), cloud (banded), snow, then the
default — each returning a `{seating, message}` object. -/
def generateRecommendation (condition : String) (temperature : Int)
    (description : String) : Recommendation :=
  if jsIncludes condition "rain" || jsIncludes condition "drizzle" then
    ⟨"indoor", s!"It looks like there will be {description} on your booking date. I\x27d recommend our cozy indoor seating area where you can enjoy your meal comfortably."⟩
  else if jsIncludes condition "thunder" || jsIncludes condition "storm" then
    ⟨"indoor", "There might be thunderstorms on that day. Indoor seating would be much safer and more comfortable."⟩
  else if jsIncludes condition "clear" || jsIncludes condition "sun" then
    if 20 ≤ temperature ∧ temperature ≤ 32 then
      ⟨"outdoor", s!"Perfect weather for outdoor dining! It\x27ll be {temperature}°C with {description}. Would you like our outdoor seating with a great view?"⟩
    else if temperature > 32 then
      ⟨"indoor", s!"It\x27ll be quite hot at {temperature}°C. Our air-conditioned indoor area would be more comfortable."⟩
    else
      ⟨"indoor", s!"It might be a bit chilly at {temperature}°C. Indoor seating would be warmer and cozier."⟩
  else if jsIncludes condition "cloud" then
    if 18 ≤ temperature ∧ temperature ≤ 28 then
      ⟨"outdoor", s!"Nice cloudy weather at {temperature}°C - perfect for outdoor seating! The clouds will keep it comfortable without direct sun."⟩
    else
      ⟨"indoor", s!"It\x27ll be {description} with temperatures around {temperature}°C. Indoor seating might be more comfortable."⟩
  else if jsIncludes condition "snow" then
    ⟨"indoor", "There\x27s snow in the forecast! Definitely recommend our warm indoor seating."⟩
  else
    ⟨"indoor", s!"The weather shows {description}. Indoor seating would be a safe and comfortable choice."⟩

/-- Reference seating policy following the (amended) specification's
words, with the checks applied in the source's precedence order:
rain/drizzle and thunder/storm always indoor; clear/sun outdoor exactly
in `[20,32]`°C; cloud outdoor exactly in `[18,28]`°C; everything else
(snow included, which the source only tests after clear and cloud) is
indoor. -/
def specRecommendSeating (condition : String) (temperature : Int) : String :=
  if jsIncludes condition "rain" || jsIncludes condition "drizzle" then "indoor"
  else if jsIncludes condition "thunder" || jsIncludes condition "storm" then "indoor"
  else if jsIncludes condition "clear" || jsIncludes condition "sun" then
    if 20 ≤ temperature ∧ temperature ≤ 32 then "outdoor" else "indoor"
  else if jsIncludes condition "cloud" then
    if 18 ≤ temperature ∧ temperature ≤ 28 then "outdoor" else "indoor"
  else "indoor"

/-- C6 counterexample: a condition containing `"snow"` does not always
yield indoor seating — the source tests `cloud` before `snow`, so
condition `"snow clouds"` at 20°C lands in the cloud band and yields
outdoor, refuting "snow yields indoor regardless of temperature". -/
theorem C6_counterexample :
    jsIncludes "snow clouds" "snow" = true ∧
    (generateRecommendation "snow clouds" 20 "light snow").seating = "outdoor" ∧
    (generateRecommendation "snow clouds" 20 "light snow").seating ≠ "indoor" := by
  refine ⟨by decide, by decide, by decide⟩

/-- C6 (amended): `generateRecommendation` is total (it is a Lean
function: every observation maps to a `{seating, message}` result) and
its seating equals the banded reference policy with the source's
precedence: rain/drizzle indoor, thunder/storm indoor, then clear/sun
banded on `[20,32]`, then cloud banded on `[18,28]`, and snow forces
indoor only when no earlier category already matched; unrecognized
conditions are indoor. -/
theorem C6_recommendation_amended (condition : String) (temperature : Int)
    (description : String) :
    (generateRecommendation condition temperature description).seating =
      specRecommendSeating condition temperature := by
  unfold generateRecommendation specRecommendSeating
  split_ifs <;> rfl

/-- The structured-or-string recommendation field: the success paths of
the weather service attach a `{seating, message}` object, while its
failure default attaches a plain string. -/
inductive RecOut where
  | obj (r : Recommendation)
  | strv (s : String)
deriving DecidableEq, Repr

/-- The object `getWeatherForDate` resolves with. -/
structure WeatherResult where
  condition : String
  temperature : Int
  description : String
  recommendation : RecOut
deriving DecidableEq, Repr

/-- Outcome of the OpenWeatherMap calls inside `getWeatherForDate`:
a forecast entry close to the booking date, the current-weather
fallback, or failure of the provider (either request throwing). The
pass-through fields `icon`, `humidity`, `windSpeed`, `date` are elided;
only `main`, rounded `temp` and `description` feed the modelled
output. -/
inductive ProviderOutcome where
  | forecast (main : String) (temp : Int) (descr : String)
  | current (main : String) (temp : Int) (descr : String)
  | unavailable

/-- Weather object built from a successful provider response:
lowercased `main` as condition, rounded temperature, description, plus
the structured recommendation. -/
def buildWeatherData (main : String) (temp : Int) (descr : String) : WeatherResult :=
  ⟨jsToLower main, temp, descr,
   RecOut.obj (generateRecommendation (jsToLower main) temp descr)⟩

/-- The object returned by the `catch` branch of
`weatherService.getWeatherForDate` (part_005 lines 355-365): note its
`recommendation` is a plain string, not a `{seating, message}`
object. -/
def defaultWeatherData : WeatherResult :=
  ⟨"unknown", 25, "Weather data unavailable",
   RecOut.strv "Indoor seating recommended as a safe choice."⟩

/-- `weatherService.getWeatherForDate`, as a total function of the
provider outcome: it never throws — on provider failure it returns the
default object. -/
def getWeatherForDate : ProviderOutcome → WeatherResult
  | .forecast main temp descr => buildWeatherData main temp descr
  | .current main temp descr => buildWeatherData main temp descr
  | .unavailable => defaultWeatherData

/-- Seating of a recommendation value, when it is a structured
`{seating, message}` object. -/
def recSeating : RecOut → Option String
  | .obj r => some r.seating
  | .strv _ => none

/-- C8 counterexample: on provider failure the returned default's
`recommendation` is the plain string
`"Indoor seating recommended as a safe choice."`, not a structured
object, so it has no `seating` field equal to `"indoor"` as the claim
asserts. -/
theorem C8_counterexample :
    recSeating (getWeatherForDate ProviderOutcome.unavailable).recommendation ≠
      some "indoor" := by
  decide

/-- C8 (amended): on provider failure `getWeatherForDate` returns
(rather than throws) a default observation with condition `"unknown"`,
temperature 25, description `"Weather data unavailable"`, and a
plain-string advisory recommending indoor seating — not a structured
`{seating, message}` object — so the dialogue turn never fails on the
weather provider. -/
theorem C8_default_weather_amended :
    (getWeatherForDate ProviderOutcome.unavailable).condition = "unknown" ∧
    (getWeatherForDate ProviderOutcome.unavailable).temperature = 25 ∧
    (getWeatherForDate ProviderOutcome.unavailable).description = "Weather data unavailable" ∧
    (getWeatherForDate ProviderOutcome.unavailable).recommendation =
      RecOut.strv "Indoor seating recommended as a safe choice." :=
  ⟨rfl, rfl, rfl, rfl⟩

/-!
## Finalization — `backend/websocket.js` `handleFinalizeBooking` and
`backend/models/Booking.js`

The handler's external effects are captured explicitly: the weather
provider's outcome, the random suffix of the `bookingId` schema default,
and whether the MongoDB write succeeds once schema validation has
passed.  `booking.save()` is modelled as schema validation plus that
store outcome; the outer `try/catch` turns a thrown unresolvable-date
error and a rejected save alike into a `sendError`, and the state reset
plus `geminiService.clearConversation` run only after a successful
save.  The human-readable confirmation text (built with
`toLocaleDateString`) is elided; only the structured payload is
modelled. -/

/-- Whitespace for the modelled `trim` (the relevant inputs only ever
carry plain spaces). -/
def isWsChar (c : Char) : Bool := c == ' '

/-- JS `s.trim()`: strip leading and trailing whitespace. -/
def jsTrim (s : String) : String :=
  ⟨((s.data.dropWhile isWsChar).reverse.dropWhile isWsChar).reverse⟩

/-- Decimal value of a non-empty digit string, `none` when some
character is not a digit. -/
def digitsVal : List Char → Option Nat
  | [] => none
  | [c] => if c.isDigit then some (c.toNat - 48) else none
  | c :: rest =>
    if c.isDigit then
      match digitsVal rest with
      | some n => some ((c.toNat - 48) * 10 ^ rest.length + n)
      | none => none
    else none

/-- JS `Number(string)` restricted to canonical integer literals (the
shapes the extraction layer produces): `Number("") === 0`, an optionally
negated digit string is its value, anything else is `NaN` (`none`). -/
def jsStringToNumber (s : String) : Option Int :=
  match s.data with
  | [] => some 0
  | '-' :: rest => (digitsVal rest).map (fun n => -(n : Int))
  | l => (digitsVal l).map (fun n => (n : Int))

/-- The `numberOfGuests` field of the inbound `bookingData`: absent
(`undefined`), a JSON number, or a string. -/
inductive NumField where
  | absent
  | numv (n : Int)
  | strn (s : String)
deriving DecidableEq, Repr

/-- JS `Number(x)` on a guest-count field: `Number(undefined)` is `NaN`
(`none`), a number is itself, a string parses as above. -/
def jsNumberOf : NumField → Option Int
  | .absent => none
  | .numv n => some n
  | .strn s => jsStringToNumber s

/-- JS `a || b` for an optional string `a` against default `b`: the
default is taken when `a` is absent or empty (falsy). -/
def strOr (a : Option String) (b : String) : String :=
  match a with
  | some s => if s = "" then b else s
  | none => b

/-- Truthiness of an optional string field. -/
def optTruthy (a : Option String) : Bool :=
  match a with
  | some s => !(s == "")
  | none => false

/-- Truthiness of the guest-count field. -/
def numTruthy : NumField → Bool
  | .absent => false
  | .numv n => !(n == 0)
  | .strn s => !(s == "")

/-- The inbound `finalize_booking` payload `bookingData` (the client
sends its conversation state here).  The date-bearing fields carry the
abstract date-expression grammar; an absent or empty (falsy) field is
`none`. -/
structure BookingData where
  customerName : Option String
  numberOfGuests : NumField
  bookingDate : Option DateExpr
  date : Option DateExpr
  bookingTime : Option String
  time : Option String
  cuisinePreference : Option String
  specialRequests : Option String
  seatingPreference : Option String
  weatherInfo : Option WeatherResult

/-- The completion predicate of `isBookingComplete`, read directly off
the inbound `bookingData` payload: the five required slots are truthy
(`cuisinePreference` and `specialRequests` do not block completion). -/
def bdComplete (bd : BookingData) : Bool :=
  optTruthy bd.customerName && numTruthy bd.numberOfGuests &&
  bd.bookingDate.isSome && optTruthy bd.bookingTime &&
  optTruthy bd.seatingPreference

/-- The Booking document the handler constructs and persists.  The
mongo-internal `_id` and the unused `phoneNumber` / `email` metadata
fields are elided. -/
structure Booking where
  bookingId : String
  customerName : String
  numberOfGuests : Int
  bookingDate : CalDate
  bookingTime : String
  cuisinePreference : String
  specialRequests : String
  seatingPreference : String
  weatherInfo : Option WeatherResult
  status : String
deriving DecidableEq, Repr

/-- `Number(bookingData.numberOfGuests) || 1`: `NaN` and `0` are falsy,
so both fall back to 1. -/
def guestsOr1 (f : NumField) : Int :=
  match jsNumberOf f with
  | none => 1
  | some n => if n = 0 then 1 else n

/-- The `new Booking({...})` construction of `handleFinalizeBooking`
(websocket.js lines 234-244), with the schema's `bookingId` default
(`"BK-" + <random suffix>`) and `status: "confirmed"` set explicitly by
the handler. -/
def buildBooking (bd : BookingData) (parsedDate : CalDate)
    (weather : Option WeatherResult) (idSuffix : String) : Booking :=
  ⟨"BK-" ++ idSuffix,
   jsTrim (strOr bd.customerName ""),
   guestsOr1 bd.numberOfGuests,
   parsedDate,
   strOr bd.bookingTime (strOr bd.time "19:00"),
   strOr bd.cuisinePreference "Any",
   strOr bd.specialRequests "",
   jsToLower (strOr bd.seatingPreference "any"),
   weather,
   "confirmed"⟩

/-- Minutes part of the schema's time pattern: `[0-5][0-9]`. -/
def minutesOk (m1 m2 : Char) : Bool :=
  (decide ('0' ≤ m1) && decide (m1 ≤ '5')) && m2.isDigit

/-- The Booking schema's `bookingTime` pattern
`^([0-1]?[0-9]|2[0-3]):[0-5][0-9]$`. -/
def isValidTime (s : String) : Bool :=
  match s.data with
  | [h1, c, m1, m2] => (c == ':') && h1.isDigit && minutesOk m1 m2
  | [h1, h2, c, m1, m2] =>
      (c == ':') &&
      (((h1 == '0' || h1 == '1') && h2.isDigit) ||
       ((h1 == '2') && (decide ('0' ≤ h2) && decide (h2 ≤ '3')))) &&
      minutesOk m1 m2
  | _ => false

/-- The mongoose validation `booking.save()` runs against the Booking
schema: required non-empty strings, guest bounds 1-20, booking date not
before today (midnight), the time pattern, and the three enums. -/
def validateBooking (ref : CalDate) (b : Booking) : Bool :=
  (!(b.bookingId == "")) &&
  (!(b.customerName == "")) &&
  decide (1 ≤ b.numberOfGuests) && decide (b.numberOfGuests ≤ 20) &&
  (!(decide (dateLt b.bookingDate ref))) &&
  (!(b.bookingTime == "")) && isValidTime b.bookingTime &&
  ["Italian", "Chinese", "Indian", "Mexican", "Japanese", "Continental",
    "Any"].contains b.cuisinePreference &&
  ["indoor", "outdoor", "any"].contains b.seatingPreference &&
  ["pending", "confirmed", "cancelled", "completed"].contains b.status

/-- Structured outbound payload of the finalize path: either
`booking_confirmed` carrying the saved Booking, or `error` with a
message. -/
inductive WsResponse where
  | bookingConfirmed (booking : Booking)
  | errorMsg (message : String)
deriving DecidableEq, Repr

/-- Whether an outbound finalize response is the `error` type. -/
def isErrorResp : WsResponse → Bool
  | .errorMsg _ => true
  | .bookingConfirmed _ => false

/-- The external effects of one finalize request: the weather provider
outcome, the random part of the `bookingId` default, and whether the
store write succeeds after validation. -/
structure FinalizeEnv where
  provider : ProviderOutcome
  idSuffix : String
  storeOk : Bool

/-- What one `finalize_booking` request leaves behind: the response sent
on the socket, the Bookings persisted by this request, the session's
conversation state afterwards, and whether the language-model context
was cleared. -/
structure FinalizeResult where
  response : WsResponse
  persisted : List Booking
  finalState : StateMap
  geminiCleared : Bool

/-- `bookingData.bookingDate || bookingData.date` fed through
`parseNaturalDate` (which returns `null` on missing input). -/
def dateResolved (ref : CalDate) (bd : BookingData) : Option CalDate :=
  match bd.bookingDate <|> bd.date with
  | none => none
  | some e => parseNaturalDate e ref

/-- The weather attached to the Booking: the client-provided
`bookingData.weatherInfo` if truthy, else the (total) weather-service
lookup for the parsed date. -/
def weatherOf (bd : BookingData) (env : FinalizeEnv) : Option WeatherResult :=
  match bd.weatherInfo with
  | some w => some w
  | none => some (getWeatherForDate env.provider)

/-- `booking.save()` resolves exactly when schema validation passes and
the store write succeeds. -/
def saveSucceeds (ref : CalDate) (env : FinalizeEnv) (b : Booking) : Bool :=
  validateBooking ref b && env.storeOk

/-- `handleFinalizeBooking` (websocket.js lines 209-283): resolve the
date (throwing, hence answering `error`, when it does not parse), attach
weather, construct and save the Booking; on success answer
`booking_confirmed`, reset the conversation state to `{}` and clear the
language-model context; on any thrown error answer `error` leaving the
state untouched. -/
def handleFinalizeBooking (ref : CalDate) (state : StateMap) (bd : BookingData)
    (env : FinalizeEnv) : FinalizeResult :=
  match dateResolved ref bd with
  | none =>
      ⟨WsResponse.errorMsg "I could not understand the date. Please try saying December 5, tomorrow, etc.",
       [], state, false⟩
  | some parsedDate =>
      let b := buildBooking bd parsedDate (weatherOf bd env) env.idSuffix
      if saveSucceeds ref env b then
        ⟨WsResponse.bookingConfirmed b, [b], emptyState, true⟩
      else
        ⟨WsResponse.errorMsg "Failed to save booking. Please try again.", [], state, false⟩

/-- A `finalize_booking` payload whose date expression no JS parse
accepts (e.g. `"whenever"`), all other required fields present. -/
def bdUnresolvable : BookingData :=
  ⟨some "John", NumField.numv 4, some DateExpr.unparsable, none, some "19:00", none,
   some "Italian", none, some "indoor", none⟩

/-- An incomplete payload: only name and date are present (guests, time
and seating empty). -/
def bdIncomplete : BookingData :=
  ⟨some "John", NumField.absent, some (DateExpr.monthDay 12 5), none, none, none,
   none, none, none, none⟩

/-- A complete payload (the five required slots truthy). -/
def bdFull : BookingData :=
  ⟨some " John ", NumField.numv 4, some (DateExpr.monthDay 12 5), none, some "19:00",
   none, some "Italian", some "window seat", some "Indoor", none⟩

/-- A payload whose guest count is the number 0. -/
def bdZeroGuests : BookingData :=
  ⟨some "John", NumField.numv 0, some (DateExpr.monthDay 12 5), none, none, none,
   none, none, none, none⟩

/-- A payload with every defaultable field absent (date present). -/
def bdDefaults : BookingData :=
  ⟨none, NumField.absent, some (DateExpr.monthDay 12 5), none, none, none,
   none, none, none, none⟩

/-- Finalize environment: provider down, id suffix `"X"`, store write
succeeds. -/
def envStoreOk : FinalizeEnv := ⟨ProviderOutcome.unavailable, "X", true⟩

/-- C4: whenever a `finalize_booking` request fails — its date does not
resolve, or the save of the constructed Booking does not succeed — the
response is an `error`, no Booking is persisted by the request and the
session's conversation state is exactly what it was: finalize failure is
atomic. -/
theorem C4_finalize_failure_atomic (ref : CalDate) (state : StateMap) (bd : BookingData)
    (env : FinalizeEnv)
    (h : ∀ pd, dateResolved ref bd = some pd →
      saveSucceeds ref env (buildBooking bd pd (weatherOf bd env) env.idSuffix) = false) :
    isErrorResp (handleFinalizeBooking ref state bd env).response = true ∧
    (handleFinalizeBooking ref state bd env).persisted = [] ∧
    (handleFinalizeBooking ref state bd env).finalState = state := by
  unfold handleFinalizeBooking
  cases hd : dateResolved ref bd with
  | none => exact ⟨rfl, rfl, rfl⟩
  | some pd =>
      have hs := h pd hd
      simp [hs, isErrorResp]

/-- Witness for C4 at a concrete failing request: an unresolvable date
expression yields an error, nothing persisted, state untouched. -/
theorem C4_finalize_failure_atomic_witness :
    isErrorResp (handleFinalizeBooking ⟨2025, 12, 10⟩ stateNoCuisine bdUnresolvable
      envStoreOk).response = true ∧
    (handleFinalizeBooking ⟨2025, 12, 10⟩ stateNoCuisine bdUnresolvable
      envStoreOk).persisted = [] ∧
    (handleFinalizeBooking ⟨2025, 12, 10⟩ stateNoCuisine bdUnresolvable
      envStoreOk).finalState = stateNoCuisine :=
  C4_finalize_failure_atomic ⟨2025, 12, 10⟩ stateNoCuisine bdUnresolvable envStoreOk
    (fun _ hpd => Option.noConfusion hpd)

/-- C5 counterexample: a payload failing the completion predicate (no
guests, time or seating) whose date resolves is not rejected — the
handler fills the gaps with defaults, persists a Booking and answers
`booking_confirmed`, refuting "incomplete finalize requests are rejected
with a structured error and not persisted". -/
theorem C5_counterexample :
    bdComplete bdIncomplete = false ∧
    isErrorResp (handleFinalizeBooking ⟨2025, 12, 10⟩ emptyState bdIncomplete
      envStoreOk).response = false ∧
    (handleFinalizeBooking ⟨2025, 12, 10⟩ emptyState bdIncomplete
      envStoreOk).persisted ≠ [] := by
  refine ⟨by decide, by decide, by decide⟩

/-- C5 (amended): `handleFinalizeBooking` never checks the completion
predicate: a payload failing it is still accepted whenever its date
resolves and the defaulted Booking passes schema validation and the
store write — the Booking is persisted and `booking_confirmed` is sent.
Rejection happens only for an unresolvable date or a failed save. -/
theorem C5_incomplete_accepted (ref : CalDate) (state : StateMap) (bd : BookingData)
    (env : FinalizeEnv) (pd : CalDate)
    (hinc : bdComplete bd = false)
    (hd : dateResolved ref bd = some pd)
    (hs : saveSucceeds ref env (buildBooking bd pd (weatherOf bd env) env.idSuffix) = true) :
    (handleFinalizeBooking ref state bd env).response =
      WsResponse.bookingConfirmed (buildBooking bd pd (weatherOf bd env) env.idSuffix) ∧
    (handleFinalizeBooking ref state bd env).persisted =
      [buildBooking bd pd (weatherOf bd env) env.idSuffix] := by
  unfold handleFinalizeBooking
  rw [hd]
  simp [hs]

/-- Witness for the amended C5: the concrete incomplete payload is
accepted and persisted with defaulted fields. -/
theorem C5_incomplete_accepted_witness :
    (handleFinalizeBooking ⟨2025, 12, 10⟩ emptyState bdIncomplete envStoreOk).response =
      WsResponse.bookingConfirmed (buildBooking bdIncomplete ⟨2026, 12, 5⟩
        (weatherOf bdIncomplete envStoreOk) envStoreOk.idSuffix) ∧
    (handleFinalizeBooking ⟨2025, 12, 10⟩ emptyState bdIncomplete envStoreOk).persisted =
      [buildBooking bdIncomplete ⟨2026, 12, 5⟩
        (weatherOf bdIncomplete envStoreOk) envStoreOk.idSuffix] :=
  C5_incomplete_accepted ⟨2025, 12, 10⟩ emptyState bdIncomplete envStoreOk ⟨2026, 12, 5⟩
    (by decide) (by decide) (by decide)

/-- C7: a `finalize_booking` request whose five required slots are
filled, whose date resolves and whose save succeeds is answered with
`booking_confirmed` carrying a Booking with status `"confirmed"` and a
non-empty generated `bookingId`; afterwards the session's conversation
state is the empty state and the language-model context is cleared. -/
theorem C7_finalize_success (ref : CalDate) (state : StateMap) (bd : BookingData)
    (env : FinalizeEnv) (pd : CalDate)
    (hc : bdComplete bd = true)
    (hd : dateResolved ref bd = some pd)
    (hs : saveSucceeds ref env (buildBooking bd pd (weatherOf bd env) env.idSuffix) = true) :
    (handleFinalizeBooking ref state bd env).response =
      WsResponse.bookingConfirmed (buildBooking bd pd (weatherOf bd env) env.idSuffix) ∧
    (buildBooking bd pd (weatherOf bd env) env.idSuffix).status = "confirmed" ∧
    (buildBooking bd pd (weatherOf bd env) env.idSuffix).bookingId ≠ "" ∧
    (handleFinalizeBooking ref state bd env).persisted =
      [buildBooking bd pd (weatherOf bd env) env.idSuffix] ∧
    (handleFinalizeBooking ref state bd env).finalState = emptyState ∧
    (handleFinalizeBooking ref state bd env).geminiCleared = true := by
  refine ⟨?_, rfl, ?_, ?_, ?_, ?_⟩
  · unfold handleFinalizeBooking
    rw [hd]
    simp [hs]
  · show ("BK-" ++ env.idSuffix) ≠ ""
    intro hemp
    have h2 := congrArg String.length hemp
    rw [String.length_append] at h2
    have h3 : ("" : String).length = 0 := rfl
    have h4 : ("BK-" : String).length = 3 := rfl
    omega
  · unfold handleFinalizeBooking
    rw [hd]
    simp [hs]
  · unfold handleFinalizeBooking
    rw [hd]
    simp [hs]
  · unfold handleFinalizeBooking
    rw [hd]
    simp [hs]

/-- Witness for C7 at a concrete complete payload. -/
theorem C7_finalize_success_witness :
    (handleFinalizeBooking ⟨2025, 12, 10⟩ stateNoCuisine bdFull envStoreOk).response =
      WsResponse.bookingConfirmed (buildBooking bdFull ⟨2026, 12, 5⟩
        (weatherOf bdFull envStoreOk) envStoreOk.idSuffix) ∧
    (buildBooking bdFull ⟨2026, 12, 5⟩ (weatherOf bdFull envStoreOk)
      envStoreOk.idSuffix).status = "confirmed" ∧
    (buildBooking bdFull ⟨2026, 12, 5⟩ (weatherOf bdFull envStoreOk)
      envStoreOk.idSuffix).bookingId ≠ "" ∧
    (handleFinalizeBooking ⟨2025, 12, 10⟩ stateNoCuisine bdFull envStoreOk).persisted =
      [buildBooking bdFull ⟨2026, 12, 5⟩ (weatherOf bdFull envStoreOk) envStoreOk.idSuffix] ∧
    (handleFinalizeBooking ⟨2025, 12, 10⟩ stateNoCuisine bdFull envStoreOk).finalState =
      emptyState ∧
    (handleFinalizeBooking ⟨2025, 12, 10⟩ stateNoCuisine bdFull envStoreOk).geminiCleared =
      true :=
  C7_finalize_success ⟨2025, 12, 10⟩ stateNoCuisine bdFull envStoreOk ⟨2026, 12, 5⟩
    (by decide) (by decide) (by decide)

/-- C10 counterexample: for the guest count 0 — a numeric input whose
numeric coercion is 0 — the constructed Booking carries 1, not the
coercion's value, because `Number(x) || 1` also falls back on the falsy
0.  This refutes "numberOfGuests is the numeric coercion of the input
with default 1 (only) when absent or non-numeric". -/
theorem C10_counterexample :
    jsNumberOf bdZeroGuests.numberOfGuests = some 0 ∧
    (buildBooking bdZeroGuests ⟨2026, 12, 5⟩ none "X").numberOfGuests = 1 ∧
    (buildBooking bdZeroGuests ⟨2026, 12, 5⟩ none "X").numberOfGuests ≠ 0 := by
  refine ⟨by decide, by decide, by decide⟩

theorem strOr_empty_default (a : Option String) : strOr a "" = a.getD "" := by
  cases a with
  | none => rfl
  | some s =>
      simp only [strOr, Option.getD_some]
      split_ifs with h
      · exact h.symm
      · rfl

/-- C10 (amended): the Booking constructed for persistence is
normalized as the claim says, except that a guest count whose numeric
coercion is 0 also defaults to 1: customerName is the trimmed input
(empty if absent), numberOfGuests is the numeric coercion with default 1
when absent, non-numeric or zero, bookingTime defaults to `"19:00"` when
absent (after the `time` alias), cuisinePreference defaults to `"Any"`,
specialRequests to the empty string, seatingPreference is lowercased
with default `"any"`, the resolved date is stored and the status is
`"confirmed"`. -/
theorem C10_normalization_amended (bd : BookingData) (pd : CalDate)
    (w : Option WeatherResult) (idSuffix : String) :
    (buildBooking bd pd w idSuffix).customerName = jsTrim (bd.customerName.getD "") ∧
    ((jsNumberOf bd.numberOfGuests = none ∨ jsNumberOf bd.numberOfGuests = some 0) →
      (buildBooking bd pd w idSuffix).numberOfGuests = 1) ∧
    (∀ n : Int, jsNumberOf bd.numberOfGuests = some n → n ≠ 0 →
      (buildBooking bd pd w idSuffix).numberOfGuests = n) ∧
    (bd.bookingTime = none → bd.time = none →
      (buildBooking bd pd w idSuffix).bookingTime = "19:00") ∧
    (bd.cuisinePreference = none →
      (buildBooking bd pd w idSuffix).cuisinePreference = "Any") ∧
    (bd.specialRequests = none →
      (buildBooking bd pd w idSuffix).specialRequests = "") ∧
    (buildBooking bd pd w idSuffix).seatingPreference =
      jsToLower (strOr bd.seatingPreference "any") ∧
    (buildBooking bd pd w idSuffix).bookingDate = pd ∧
    (buildBooking bd pd w idSuffix).status = "confirmed" := by
  refine ⟨?_, ?_, ?_, ?_, ?_, ?_, rfl, rfl, rfl⟩
  · show jsTrim (strOr bd.customerName "") = _
    rw [strOr_empty_default]
  · intro h
    show guestsOr1 bd.numberOfGuests = 1
    unfold guestsOr1
    rcases h with h | h <;> rw [h] <;> simp
  · intro n hn hne
    show guestsOr1 bd.numberOfGuests = n
    unfold guestsOr1
    rw [hn]
    simp [hne]
  · intro h1 h2
    show strOr bd.bookingTime (strOr bd.time "19:00") = "19:00"
    rw [h1, h2]
    rfl
  · intro h
    show strOr bd.cuisinePreference "Any" = "Any"
    rw [h]
    rfl
  · intro h
    show strOr bd.specialRequests "" = ""
    rw [h]
    rfl

/-- Witness for the amended C10 at an all-defaults payload. -/
theorem C10_normalization_amended_witness :
    (buildBooking bdDefaults ⟨2026, 12, 5⟩ none "X").customerName =
      jsTrim (bdDefaults.customerName.getD "") ∧
    (buildBooking bdDefaults ⟨2026, 12, 5⟩ none "X").numberOfGuests = 1 ∧
    (buildBooking bdDefaults ⟨2026, 12, 5⟩ none "X").bookingTime = "19:00" ∧
    (buildBooking bdDefaults ⟨2026, 12, 5⟩ none "X").cuisinePreference = "Any" ∧
    (buildBooking bdDefaults ⟨2026, 12, 5⟩ none "X").specialRequests = "" :=
  have h := C10_normalization_amended bdDefaults ⟨2026, 12, 5⟩ none "X"
  ⟨h.1, h.2.1 (Or.inl rfl), h.2.2.2.1 rfl rfl, h.2.2.2.2.1 rfl, h.2.2.2.2.2.1 rfl⟩
